import Mathlib

/-
Shallow embedding of the Wyckoff/SMC analysis pipeline
(confluence analyzer, SMC/Wyckoff pattern analyzers, backtest engine,
performance calculator, learning engine, RSI indicator).

Modelling conventions:
- Python floats are modelled as exact rationals (ℚ).
- datetime timestamps are modelled as rationals (hours); datetime
  subtraction `total_seconds()/3600` becomes plain subtraction.
- A Python float that may be None is `Option ℚ`.
- Python exceptions (KeyError on a missing dict key, ZeroDivisionError)
  are modelled with `Except PyError`.
- numpy mean/std on nonempty lists are exact rational operations; `np.std
  (xs)/np.mean(xs) < c` is modelled by comparing squares (see
  `stdOverMeanLt`), which agrees with the float computation whenever the
  mean is nonzero, and with the IEEE inf/nan comparison semantics when the
  mean is zero.
- interpolated report strings (pattern labels, reasoning sentences) are
  modelled as inductive labels carrying the interpolated data; keys of the
  source dictionaries that no caller ever reads (analysis summaries,
  volume ratios, swing-point echo lists) are omitted.
-/

/-- Python exception outcomes that the analyzed code can actually raise. -/
inductive PyError where
  | keyError
  | zeroDivision
  deriving DecidableEq

/-- np.mean of a rational list; call sites guarantee nonemptiness except
where the surrounding float code itself tolerates the nan (see comments at
the call sites). -/
def npMean (xs : List ℚ) : ℚ := xs.sum / xs.length

/-- Python slice l[-n:]. -/
def takeLast (l : List ℚ) (n : ℕ) : List ℚ := l.drop (l.length - n)

/-- Python max() on a nonempty list (0 on empty, never hit at call sites). -/
def listMax (l : List ℚ) : ℚ :=
  match l with
  | [] => 0
  | x :: xs => xs.foldl max x

/-- Python min() on a nonempty list (0 on empty, never hit at call sites). -/
def listMin (l : List ℚ) : ℚ :=
  match l with
  | [] => 0
  | x :: xs => xs.foldl min x

/-- data_structures/ohlc.py OHLCData (the to_dict serializer is omitted). -/
structure OHLCData where
  symbol : String
  timeframe : String
  timestamp : ℚ
  openPrice : ℚ
  high : ℚ
  low : ℚ
  close : ℚ
  volume : ℚ
  deriving DecidableEq

/-- Placeholder bar used as the default of list lookups that the source
only performs at in-range indices. -/
def defaultBar : OHLCData :=
  { symbol := "", timeframe := "", timestamp := 0, openPrice := 0,
    high := 0, low := 0, close := 0, volume := 0 }

def highsOf (bars : List OHLCData) : List ℚ := bars.map (·.high)

def lowsOf (bars : List OHLCData) : List ℚ := bars.map (·.low)

def closesOf (bars : List OHLCData) : List ℚ := bars.map (·.close)

/-- volumes = [c.volume for c in ohlc_data if c.volume > 0]. -/
def posVolumes (bars : List OHLCData) : List ℚ :=
  (bars.filter fun b => decide (0 < b.volume)).map (·.volume)

/-- ConfluenceSignal.signal_type / TradeResult.trade_type values. -/
inductive SignalType where
  | BUY
  | SELL
  | NEUTRAL
  deriving DecidableEq

/-- advanced_smc_analyzer.py structure shift type strings. -/
inductive BOSType where
  | BULLISH_BOS
  | BEARISH_BOS
  deriving DecidableEq

/-- One entry of the shifts list built by detect_market_structure_shift
(the description string and current_price echo are omitted). -/
structure StructureShift where
  shiftType : BOSType
  confidence : ℚ
  break_level : ℚ
  deriving DecidableEq

/-- Return value of detect_market_structure_shift (the swing_highs /
swing_lows echo lists are omitted: no caller reads them). -/
structure MarketStructureResult where
  detected : Bool
  shifts : List StructureShift
  deriving DecidableEq

/-- Swing high at index i: highs[i] >= highs[j] for all j != i in the
±5 window (advanced_smc_analyzer.py line 24). -/
def isSwingHigh (highs : List ℚ) (i : ℕ) : Bool :=
  (List.range' (i - 5) 11).all fun j =>
    j == i || decide (highs.getD j 0 ≤ highs.getD i 0)

/-- Swing low at index i: lows[i] <= lows[j] for all j != i in the
±5 window (advanced_smc_analyzer.py line 28). -/
def isSwingLow (lows : List ℚ) (i : ℕ) : Bool :=
  (List.range' (i - 5) 11).all fun j =>
    j == i || decide (lows.getD i 0 ≤ lows.getD j 0)

/-- Indices scanned for swing points: range(5, len-5). -/
def swingScanIdxs (n : ℕ) : List ℕ := List.range' 5 (n - 10)

def swingHighPrices (bars : List OHLCData) : List ℚ :=
  ((swingScanIdxs bars.length).filter (isSwingHigh (highsOf bars))).map
    fun i => (highsOf bars).getD i 0

def swingLowPrices (bars : List OHLCData) : List ℚ :=
  ((swingScanIdxs bars.length).filter (isSwingLow (lowsOf bars))).map
    fun i => (lowsOf bars).getD i 0

/-- Python l[-2] of a list known to have at least 2 elements. -/
def secondLast (l : List ℚ) : Option ℚ := l.dropLast.getLast?

/-- advanced_smc_analyzer.py detect_market_structure_shift: finds weak
(ties allowed) ±5-window swing points, requires at least two swing highs
and two swing lows, then reports BULLISH_BOS when the last close is more
than 0.1 percent above the second-most-recent swing high and BEARISH_BOS
when it is more than 0.1 percent below the second-most-recent swing low,
each with confidence 85. -/
def detect_market_structure_shift (bars : List OHLCData) : MarketStructureResult :=
  if bars.length < 20 then ⟨false, []⟩
  else
    let sh := swingHighPrices bars
    let sl := swingLowPrices bars
    if sh.length < 2 ∨ sl.length < 2 then ⟨false, []⟩
    else
      let cur := (closesOf bars).getLast?.getD 0
      let prevHigh := (secondLast sh).getD 0
      let prevLow := (secondLast sl).getD 0
      let bull : List StructureShift :=
        if prevHigh * (1001/1000 : ℚ) < cur then
          [⟨.BULLISH_BOS, 85, prevHigh⟩] else []
      let bear : List StructureShift :=
        if cur < prevLow * (999/1000 : ℚ) then
          [⟨.BEARISH_BOS, 85, prevLow⟩] else []
      let shifts := bull ++ bear
      ⟨!shifts.isEmpty, shifts⟩

/-- Order-flow signal type strings of detect_institutional_order_flow. -/
inductive OrderFlowType where
  | INSTITUTIONAL_BUYING
  | INSTITUTIONAL_SELLING
  | ABSORPTION
  deriving DecidableEq

/-- One order-flow signal (timestamp/price/ratio echoes omitted). -/
structure OrderFlowSignal where
  flowType : OrderFlowType
  confidence : ℚ
  deriving DecidableEq

/-- Return value of detect_institutional_order_flow (the full signal list
and total count are kept implicitly via latest_signal; only detected and
latest_signal are read by the confluence analyzer). -/
structure OrderFlowResult where
  detected : Bool
  latest_signal : Option OrderFlowSignal
  deriving DecidableEq

/-- advanced_smc_analyzer.py detect_institutional_order_flow. The source
indexes the positive-volume-filtered list with bar positions; the
embedding reproduces that index mixing verbatim. -/
def detect_institutional_order_flow (bars : List OHLCData) : OrderFlowResult :=
  if bars.length < 30 then ⟨false, none⟩
  else
    let volumes := posVolumes bars
    let signals := (List.range' 10 (bars.length - 15)).filterMap fun i =>
      let cur := bars.getD i defaultBar
      -- np.mean(volumes[max(0, i-10):i]); an empty slice gives float nan,
      -- and nan > 0 is false, exactly like npMean [] = 0 here
      let av := npMean ((volumes.drop (i - 10)).take 10)
      let vr := if 0 < av then cur.volume / av else 1
      let body := |cur.close - cur.openPrice|
      let rng := cur.high - cur.low
      let br := if 0 < rng then body / rng else 0
      if 2 < vr ∧ (7/10 : ℚ) < br then
        some (if cur.openPrice < cur.close then
                OrderFlowSignal.mk .INSTITUTIONAL_BUYING (min 90 (60 + vr * 10))
              else
                OrderFlowSignal.mk .INSTITUTIONAL_SELLING (min 90 (60 + vr * 10)))
      else if (9/5 : ℚ) < vr ∧ br < (3/10 : ℚ) then
        some ⟨.ABSORPTION, 70⟩
      else none
    ⟨!signals.isEmpty, signals.getLast?⟩

/-- Institutional activity type strings of
detect_composite_operator_activity. -/
inductive ActivityType where
  | ACCUMULATION_ABSORPTION
  | DISTRIBUTION_ABSORPTION
  | INSTITUTIONAL_BUYING
  | INSTITUTIONAL_SELLING
  deriving DecidableEq

/-- Return value of detect_composite_operator_activity (only detected and
latest_activity are read by the confluence analyzer). -/
structure CompositeResult where
  detected : Bool
  latest_activity : Option ActivityType
  deriving DecidableEq

/-- The volume-spike scan of detect_composite_operator_activity over the
given bar indices; raises ZeroDivisionError at the first spike bar whose
open is 0 (price_change = |close-open|/open). -/
def compositeScan (bars : List OHLCData) (av : ℚ) :
    List ℕ → Except PyError (List ActivityType)
  | [] => .ok []
  | i :: rest =>
    let cur := bars.getD i defaultBar
    if av * (3/2 : ℚ) < cur.volume then
      if cur.openPrice = 0 then .error .zeroDivision
      else
        let pc := |cur.close - cur.openPrice| / cur.openPrice
        let here : List ActivityType :=
          if pc < (1/200 : ℚ) then
            [if cur.openPrice < cur.close then .ACCUMULATION_ABSORPTION
             else .DISTRIBUTION_ABSORPTION]
          else if (1/100 : ℚ) < pc then
            [if cur.openPrice < cur.close then .INSTITUTIONAL_BUYING
             else .INSTITUTIONAL_SELLING]
          else []
        (compositeScan bars av rest).map (here ++ ·)
    else compositeScan bars av rest

/-- advanced_wyckoff_analyzer.py detect_composite_operator_activity with
the default volume_threshold = 1.5. -/
def detect_composite_operator_activity (bars : List OHLCData) :
    Except PyError CompositeResult :=
  if bars.length < 20 then .ok ⟨false, none⟩
  else
    let volumes := posVolumes bars
    if volumes.isEmpty then .ok ⟨false, none⟩
    else
      let av := npMean (takeLast volumes 20)
      match compositeScan bars av (List.range' 10 (bars.length - 10)) with
      | .error e => .error e
      | .ok acts => .ok ⟨!acts.isEmpty, acts.getLast?⟩

/-- Wyckoff phase strings of detect_wyckoff_schematic. -/
inductive WyckoffPhase where
  | ACCUMULATION
  | DISTRIBUTION
  | CONSOLIDATION
  | MARKUP
  | MARKDOWN
  | TRANSITION
  deriving DecidableEq

/-- expected_direction strings of detect_wyckoff_schematic. -/
inductive Direction where
  | BULLISH
  | BEARISH
  | NEUTRAL
  deriving DecidableEq

/-- Return value of detect_wyckoff_schematic: the short-data branch
returns a dict holding only the phase key INSUFFICIENT_DATA (in
particular no expected_direction key), the full branch returns phase,
confidence and expected_direction (the price_position, volume_pattern,
price_volatility and analysis_summary echo keys, which no caller reads,
are omitted). -/
inductive WyckoffSchematic where
  | insufficientData
  | result (phase : WyckoffPhase) (confidence : ℚ) (expected_direction : Direction)
  deriving DecidableEq

/-- volume_pattern classifier strings. -/
inductive VolumePattern where
  | NO_VOLUME_DATA
  | INCREASING
  | DECREASING
  | STABLE
  deriving DecidableEq

/-- Sum of squared deviations from the mean (length times the numpy
population variance). -/
def varSum (xs : List ℚ) : ℚ := (xs.map fun x => (x - npMean xs) ^ 2).sum

/-- Models the float comparison np.std(xs)/np.mean(xs) < c for c > 0.
For mean > 0 it is equivalent to var < c^2 * mean^2, i.e.
varSum < c^2 * mean^2 * n. For mean < 0 the float quotient is <= 0 < c.
For mean = 0 the float quotient is inf or nan and the comparison is
false. -/
def stdOverMeanLt (xs : List ℚ) (c : ℚ) : Bool :=
  let m := npMean xs
  if 0 < m then decide (varSum xs < c ^ 2 * m ^ 2 * xs.length)
  else if m < 0 then true
  else false

/-- volume_pattern: recent 20-average vs earliest 20-average with ±20
percent bands. -/
def volumePatternOf (volumes : List ℚ) : VolumePattern :=
  if volumes.isEmpty then .NO_VOLUME_DATA
  else
    let recent := npMean (takeLast volumes 20)
    let early := npMean (volumes.take 20)
    if early * (6/5 : ℚ) < recent then .INCREASING
    else if recent < early * (4/5 : ℚ) then .DECREASING
    else .STABLE

/-- advanced_wyckoff_analyzer.py detect_wyckoff_schematic. Raises
ZeroDivisionError computing price_position when all closes are equal
(price_range = 0); below 100 bars it returns the INSUFFICIENT_DATA
sentinel dict that lacks the expected_direction key. -/
def detect_wyckoff_schematic (bars : List OHLCData) :
    Except PyError WyckoffSchematic :=
  if bars.length < 100 then .ok .insufficientData
  else
    let closes := closesOf bars
    let volumes := posVolumes bars
    let priceRange := listMax closes - listMin closes
    let volLt := stdOverMeanLt (takeLast closes 50) (1/50 : ℚ)
    let vp := volumePatternOf volumes
    if priceRange = 0 then .error .zeroDivision
    else
      let pos := (closes.getLast?.getD 0 - listMin closes) / priceRange
      if volLt ∧ (vp = .STABLE ∨ vp = .DECREASING) then
        if pos < (3/10 : ℚ) then .ok (.result .ACCUMULATION 75 .BULLISH)
        else if (7/10 : ℚ) < pos then .ok (.result .DISTRIBUTION 75 .BEARISH)
        else .ok (.result .CONSOLIDATION 60 .NEUTRAL)
      else if vp = .INCREASING then
        if (1/2 : ℚ) < pos then .ok (.result .MARKUP 80 .BULLISH)
        else .ok (.result .MARKDOWN 80 .BEARISH)
      else .ok (.result .TRANSITION 50 .NEUTRAL)

/-- Per-bar true ranges: max(high-low, |high-prevClose|, |low-prevClose|). -/
def trueRanges (bars : List OHLCData) : List ℚ :=
  (bars.zip (bars.drop 1)).map fun pc =>
    max (pc.2.high - pc.2.low)
      (max |pc.2.high - pc.1.close| |pc.2.low - pc.1.close|)

/-- confluence_analyzer.py _calculate_atr: mean true range, fallback 0.01
below 2 bars. -/
def calculate_atr (bars : List OHLCData) : ℚ :=
  if bars.length < 2 then 1/100
  else if (trueRanges bars).isEmpty then 1/100
  else npMean (trueRanges bars)

/-- Reasoning sentences assembled into the reasoning string (interpolated
values carried as data). -/
inductive ReasonPart where
  | wyckoffBullish (phase : WyckoffPhase)
  | wyckoffBearish (phase : WyckoffPhase)
  | institutionalBuyingDetected
  | institutionalSellingDetected
  | bullishBOSConfirms
  | bearishBOSConfirms
  | recentOrderFlow (t : OrderFlowType)
  | rsiOversoldSupports
  | rsiOverboughtSupports
  | macdHistogramBullish
  | macdHistogramBearish
  | notEnoughData
  | noSignificantConfluence
  deriving DecidableEq

/-- Formatted pattern label strings (interpolated values carried as data). -/
inductive PatternLabel where
  | wyckoffPhaseLabel (phase : WyckoffPhase) (confidence : ℚ)
  | institutionalLabel (t : ActivityType)
  | bullishBOSLabel (confidence : ℚ)
  | bearishBOSLabel (confidence : ℚ)
  | orderFlowLabel (t : OrderFlowType)
  deriving DecidableEq

/-- Formatted supporting-indicator label strings. -/
inductive IndicatorLabel where
  | rsiOversold (v : ℚ)
  | rsiOverbought (v : ℚ)
  | macdBullish
  | macdBearish
  deriving DecidableEq

/-- data_structures/confluence_signal.py ConfluenceSignal. -/
structure ConfluenceSignal where
  signal_type : SignalType
  confluence_score : ℚ
  entry_price : ℚ
  stop_loss : ℚ
  take_profit : ℚ
  risk_reward_ratio : ℚ
  wyckoff_patterns : List PatternLabel
  smc_patterns : List PatternLabel
  supporting_indicators : List IndicatorLabel
  timestamp : ℚ
  reasoning : List ReasonPart
  deriving DecidableEq

/-- The NEUTRAL / score-0 sentinel returned below 20 bars (its timestamp
is datetime.now() in the source, modelled as 0). -/
def insufficientDataSignal : ConfluenceSignal :=
  { signal_type := .NEUTRAL, confluence_score := 0, entry_price := 0,
    stop_loss := 0, take_profit := 0, risk_reward_ratio := 0,
    wyckoff_patterns := [], smc_patterns := [], supporting_indicators := [],
    timestamp := 0, reasoning := [.notEnoughData] }

/-- The technical_indicators dict argument: rsi_value models
technical_indicators['rsi'].get('value') and macd_histogram models
technical_indicators['macd'].get('histogram'); the whole map is Option
because an empty dict is falsy and skips the scoring block. -/
structure TechnicalIndicatorsMap where
  rsi_value : Option ℚ
  macd_histogram : Option ℚ
  deriving DecidableEq

/-- Last third of analyze_confluence: clamp the raw score to [0,100],
force NEUTRAL below 60, derive ATR-based stop/target and the
risk-reward ratio, and assemble the ConfluenceSignal. -/
def finalizeConfluence (cur atr ts : ℚ) (st0 : SignalType) (raw : ℚ)
    (wy smc : List PatternLabel) (ind : List IndicatorLabel)
    (reasons : List ReasonPart) : ConfluenceSignal :=
  let score := min 100 (max 0 raw)
  let st := if score < 60 then SignalType.NEUTRAL else st0
  let stopTp : ℚ × ℚ :=
    match st with
    | .BUY => (cur - atr * (3/2 : ℚ), cur + atr * (9/2 : ℚ))
    | .SELL => (cur + atr * (3/2 : ℚ), cur - atr * (9/2 : ℚ))
    | .NEUTRAL => (cur, cur)
  let entry := cur
  let rr := if 0 < |stopTp.1 - entry| then |stopTp.2 - entry| / |stopTp.1 - entry| else 0
  { signal_type := st, confluence_score := score, entry_price := entry,
    stop_loss := stopTp.1, take_profit := stopTp.2, risk_reward_ratio := rr,
    wyckoff_patterns := wy, smc_patterns := smc, supporting_indicators := ind,
    timestamp := ts,
    reasoning := if reasons.isEmpty then [.noSignificantConfluence] else reasons }

/-- confluence_analyzer.py analyze_confluence. Below 20 bars it returns
the sentinel; otherwise it runs the Wyckoff schematic (which raises
ZeroDivisionError on a zero price range), the composite-operator scan
(which can raise ZeroDivisionError on a zero open), the market-structure
and order-flow scans, and then reads
wyckoff_schematic['expected_direction'] - a KeyError when the schematic
is the INSUFFICIENT_DATA dict (20 <= bars < 100). -/
def analyze_confluence (ohlc_data : List OHLCData)
    (technical_indicators : Option TechnicalIndicatorsMap) :
    Except PyError ConfluenceSignal :=
  if ohlc_data.length < 20 then .ok insufficientDataSignal
  else
    let current_price := (ohlc_data.getLast?.getD defaultBar).close
    match detect_wyckoff_schematic ohlc_data with
    | .error e => .error e
    | .ok sch =>
      match detect_composite_operator_activity ohlc_data with
      | .error e => .error e
      | .ok comp =>
        let ms := detect_market_structure_shift ohlc_data
        let ofl := detect_institutional_order_flow ohlc_data
        match sch with
        | .insufficientData => .error .keyError
        | .result phase conf dir =>
          -- Wyckoff scoring
          let base : ℚ × SignalType × List PatternLabel × List ReasonPart :=
            match dir with
            | .BULLISH => (conf * (2/5 : ℚ), .BUY,
                [.wyckoffPhaseLabel phase conf], [.wyckoffBullish phase])
            | .BEARISH => (conf * (2/5 : ℚ), .SELL,
                [.wyckoffPhaseLabel phase conf], [.wyckoffBearish phase])
            | .NEUTRAL => (0, .NEUTRAL, [], [])
          let score0 := base.1
          let st := base.2.1
          let wy0 := base.2.2.1
          let rs0 := base.2.2.2
          -- Composite operator activity scoring
          let compAdd : ℚ × List PatternLabel × List ReasonPart :=
            match comp.detected, comp.latest_activity with
            | true, some t =>
              if t = .INSTITUTIONAL_BUYING ∨ t = .ACCUMULATION_ABSORPTION then
                if st = .BUY then
                  (15, [.institutionalLabel t], [.institutionalBuyingDetected])
                else (0, [], [])
              else
                if st = .SELL then
                  (15, [.institutionalLabel t], [.institutionalSellingDetected])
                else (0, [], [])
            | _, _ => (0, [], [])
          let score1 := score0 + compAdd.1
          let wy1 := wy0 ++ compAdd.2.1
          let rs1 := rs0 ++ compAdd.2.2
          -- SMC structure-shift scoring
          let smcStep := fun (acc : ℚ × List PatternLabel × List ReasonPart)
              (s : StructureShift) =>
            if s.shiftType = .BULLISH_BOS ∧ st = .BUY then
              (acc.1 + s.confidence * (3/10 : ℚ),
               acc.2.1 ++ [.bullishBOSLabel s.confidence],
               acc.2.2 ++ [.bullishBOSConfirms])
            else if s.shiftType = .BEARISH_BOS ∧ st = .SELL then
              (acc.1 + s.confidence * (3/10 : ℚ),
               acc.2.1 ++ [.bearishBOSLabel s.confidence],
               acc.2.2 ++ [.bearishBOSConfirms])
            else acc
          let smcAcc :=
            if ms.detected then ms.shifts.foldl smcStep (score1, [], rs1)
            else (score1, [], rs1)
          let score2 := smcAcc.1
          let smc0 := smcAcc.2.1
          let rs2 := smcAcc.2.2
          -- Order-flow scoring
          let oflAdd : ℚ × List PatternLabel × List ReasonPart :=
            match ofl.detected, ofl.latest_signal with
            | true, some sig =>
              if (sig.flowType = .INSTITUTIONAL_BUYING ∧ st = .BUY) ∨
                 (sig.flowType = .INSTITUTIONAL_SELLING ∧ st = .SELL) then
                (sig.confidence * (1/5 : ℚ), [.orderFlowLabel sig.flowType],
                 [.recentOrderFlow sig.flowType])
              else (0, [], [])
            | _, _ => (0, [], [])
          let score3 := score2 + oflAdd.1
          let smc1 := smc0 ++ oflAdd.2.1
          let rs3 := rs2 ++ oflAdd.2.2
          -- Technical indicator scoring (skipped when the dict is empty;
          -- rsi_value and histogram are also truthiness-checked, so a 0
          -- value is skipped)
          let techAdd : ℚ × List IndicatorLabel × List ReasonPart :=
            match technical_indicators with
            | none => (0, [], [])
            | some ti =>
              let rsiAdd : ℚ × List IndicatorLabel × List ReasonPart :=
                match ti.rsi_value with
                | some v =>
                  if v ≠ 0 then
                    if v < 30 ∧ st = .BUY then
                      (10, [.rsiOversold v], [.rsiOversoldSupports])
                    else if 70 < v ∧ st = .SELL then
                      (10, [.rsiOverbought v], [.rsiOverboughtSupports])
                    else (0, [], [])
                  else (0, [], [])
                | none => (0, [], [])
              let macdAdd : ℚ × List IndicatorLabel × List ReasonPart :=
                match ti.macd_histogram with
                | some h =>
                  if h ≠ 0 then
                    if 0 < h ∧ st = .BUY then
                      (8, [.macdBullish], [.macdHistogramBullish])
                    else if h < 0 ∧ st = .SELL then
                      (8, [.macdBearish], [.macdHistogramBearish])
                    else (0, [], [])
                  else (0, [], [])
                | none => (0, [], [])
              (rsiAdd.1 + macdAdd.1, rsiAdd.2.1 ++ macdAdd.2.1,
               rsiAdd.2.2 ++ macdAdd.2.2)
          let raw := score3 + techAdd.1
          let ind := techAdd.2.1
          let rs4 := rs3 ++ techAdd.2.2
          let atr := calculate_atr (ohlc_data.drop (ohlc_data.length - 14))
          .ok (finalizeConfluence current_price atr
            (ohlc_data.getLast?.getD defaultBar).timestamp st raw wy1 smc1 ind rs4)

/-- Exit reason strings embedded into the trade notes. -/
inductive ExitReason where
  | STOP_LOSS
  | TAKE_PROFIT
  | TIMEOUT
  deriving DecidableEq

/-- TradeResult.status values. -/
inductive TradeStatus where
  | OPEN
  | CLOSED
  | STOPPED
  deriving DecidableEq

/-- data_structures/trade_results.py TradeResult. trade_id is the string
"backtest_" plus the entry timestamp in the source; it is modelled by the
timestamp itself. trade_notes holds the exit reason (the rest of the note
string is determined by confluence_score). -/
structure TradeResult where
  trade_id : ℚ
  symbol : String
  timeframe : String
  entry_time : ℚ
  exit_time : Option ℚ
  entry_price : ℚ
  exit_price : Option ℚ
  position_size : ℚ
  trade_type : SignalType
  status : TradeStatus
  pnl : Option ℚ
  pnl_percent : Option ℚ
  stop_loss : ℚ
  take_profit : ℚ
  patterns_detected : List PatternLabel
  confluence_score : ℚ
  wyckoff_signals : List PatternLabel
  smc_signals : List PatternLabel
  technical_indicators : List (String × ℚ)
  risk_reward_ratio : ℚ
  hold_time_hours : Option ℚ
  max_favorable_excursion : Option ℚ
  max_adverse_excursion : Option ℚ
  trade_notes : ExitReason
  deriving DecidableEq

/-- The exit-condition loop of _simulate_trade: for each future candle,
check the stop (BUY: low <= stop, SELL: high >= stop) before the target
(BUY: high >= target, SELL: low <= target), breaking at the first hit. -/
def tradeExitScan (tt : SignalType) (stop tp : ℚ) :
    List OHLCData → Option (ℚ × ℚ × ExitReason)
  | [] => none
  | c :: rest =>
    if tt = .BUY ∧ c.low ≤ stop then some (stop, c.timestamp, .STOP_LOSS)
    else if tt = .SELL ∧ stop ≤ c.high then some (stop, c.timestamp, .STOP_LOSS)
    else if tt = .BUY ∧ tp ≤ c.high then some (tp, c.timestamp, .TAKE_PROFIT)
    else if tt = .SELL ∧ c.low ≤ tp then some (tp, c.timestamp, .TAKE_PROFIT)
    else tradeExitScan tt stop tp rest

/-- Exit search of _simulate_trade: the candle loop, then the timeout
fallback closing at the last future candle (none when future_data is
empty). Returns exit price, exit time and reason. -/
def tradeExit (tt : SignalType) (stop tp : ℚ) (future_data : List OHLCData) :
    Option (ℚ × ℚ × ExitReason) :=
  match tradeExitScan tt stop tp future_data with
  | some e => some e
  | none => future_data.getLast?.map fun c => (c.close, c.timestamp, .TIMEOUT)

/-- back_testing_tool.py _simulate_trade. Raises ZeroDivisionError
computing pnl_percent when entry_price * position_size = 0 (never hit by
_execute_backtest, which guards position_size > 0 and a nonzero stop
distance). -/
def simulate_trade (entry_candle : OHLCData) (signal : ConfluenceSignal)
    (position_size : ℚ) (future_data : List OHLCData) :
    Except PyError (Option TradeResult) :=
  let entry_price := signal.entry_price
  match tradeExit signal.signal_type signal.stop_loss signal.take_profit future_data with
  | none => .ok none
  | some (exit_price, exit_time, reason) =>
    let pnl := if signal.signal_type = .BUY then (exit_price - entry_price) * position_size
               else (entry_price - exit_price) * position_size
    if entry_price * position_size = 0 then .error .zeroDivision
    else
      .ok (some
        { trade_id := entry_candle.timestamp,
          symbol := entry_candle.symbol,
          timeframe := entry_candle.timeframe,
          entry_time := entry_candle.timestamp,
          exit_time := some exit_time,
          entry_price := entry_price,
          exit_price := some exit_price,
          position_size := position_size,
          trade_type := signal.signal_type,
          status := .CLOSED,
          pnl := some pnl,
          pnl_percent := some (pnl / (entry_price * position_size) * 100),
          stop_loss := signal.stop_loss,
          take_profit := signal.take_profit,
          patterns_detected := signal.wyckoff_patterns ++ signal.smc_patterns,
          confluence_score := signal.confluence_score,
          wyckoff_signals := signal.wyckoff_patterns,
          smc_signals := signal.smc_patterns,
          technical_indicators := [],
          risk_reward_ratio := signal.risk_reward_ratio,
          hold_time_hours := some (exit_time - entry_candle.timestamp),
          max_favorable_excursion := none,
          max_adverse_excursion := none,
          trade_notes := reason })

/-- back_testing_tool.py _get_technical_indicators: a simplified RSI over
the window closes plus a constant positive MACD histogram; an empty dict
(none) below 20 bars. -/
def get_technical_indicators (ohlc_data : List OHLCData) :
    Option TechnicalIndicatorsMap :=
  if ohlc_data.length < 20 then none
  else
    let closes := closesOf ohlc_data
    let changes := (closes.zip (closes.drop 1)).map fun pc => pc.2 - pc.1
    let gains := changes.map (max 0)
    let losses := changes.map fun c => max 0 (-c)
    let rsiV : ℚ :=
      if 14 ≤ gains.length then
        let avgGain := npMean (takeLast gains 14)
        let avgLoss := npMean (takeLast losses 14)
        if 0 < avgLoss then 100 - 100 / (1 + avgGain / avgLoss) else 100
      else 50
    some { rsi_value := some rsiV, macd_histogram := some (1/1000 : ℚ) }

/-- A PerformanceMetrics field that the source stores as a float that may
be math.inf: `.fin q` is the plain value q, `.inf` is float('inf'). -/
inductive PFValue where
  | fin (q : ℚ)
  | inf
  deriving DecidableEq

/-- Exact encoding of the square-root-valued ratio fields: `.fin c r`
denotes the real number c * sqrt(r) with r >= 0 (a plain value x is
`.fin x 1`), `.inf` is float('inf'). -/
inductive RatioVal where
  | fin (coeff : ℚ) (radicand : ℚ)
  | inf
  deriving DecidableEq

/-- Per-timeframe entry of performance_by_timeframe. -/
structure TimeframePerf where
  total_trades : ℕ
  win_rate : ℚ
  total_pnl : ℚ
  avg_pnl : ℚ
  deriving DecidableEq

/-- data_structures/performance_metrics.py PerformanceMetrics. The two
dict-valued fields are modelled as insertion-ordered association lists. -/
structure PerformanceMetrics where
  total_trades : ℕ
  winning_trades : ℕ
  losing_trades : ℕ
  win_rate : ℚ
  profit_factor : PFValue
  total_pnl : ℚ
  total_pnl_percent : ℚ
  avg_win : ℚ
  avg_loss : ℚ
  largest_win : ℚ
  largest_loss : ℚ
  max_consecutive_wins : ℕ
  max_consecutive_losses : ℕ
  max_drawdown : ℚ
  max_drawdown_percent : ℚ
  sharpe_ratio : RatioVal
  sortino_ratio : RatioVal
  calmar_ratio : ℚ
  avg_trade_duration_hours : ℚ
  avg_risk_reward : ℚ
  expectancy : ℚ
  recovery_factor : ℚ
  profit_factor_by_asset : List (String × PFValue)
  performance_by_timeframe : List (String × TimeframePerf)
  deriving DecidableEq

/-- The metrics bundle the two guard branches of calculate_basic_metrics
return: every field zero or empty except total_trades, which the
all-open branch sets to len(trades). -/
def emptyMetrics (n : ℕ) : PerformanceMetrics :=
  { total_trades := n, winning_trades := 0, losing_trades := 0,
    win_rate := 0, profit_factor := .fin 0, total_pnl := 0,
    total_pnl_percent := 0, avg_win := 0, avg_loss := 0, largest_win := 0,
    largest_loss := 0, max_consecutive_wins := 0, max_consecutive_losses := 0,
    max_drawdown := 0, max_drawdown_percent := 0, sharpe_ratio := .fin 0 1,
    sortino_ratio := .fin 0 1, calmar_ratio := 0,
    avg_trade_duration_hours := 0, avg_risk_reward := 0, expectancy := 0,
    recovery_factor := 0, profit_factor_by_asset := [],
    performance_by_timeframe := [] }

/-- closed_trades = [t for t in trades if t.status == CLOSED and t.pnl is
not None]. -/
def closedTradesOf (trades : List TradeResult) : List TradeResult :=
  trades.filter fun t => decide (t.status = .CLOSED ∧ t.pnl ≠ none)

/-- t.pnl with the None case defaulted; only used where the source has
already filtered out None pnl. -/
def pnlD (t : TradeResult) : ℚ := t.pnl.getD 0

/-- wins = [t.pnl for t in closed if t.pnl is not None and t.pnl > 0]. -/
def winsOf (closed : List TradeResult) : List ℚ :=
  closed.filterMap fun t =>
    match t.pnl with
    | some p => if 0 < p then some p else none
    | none => none

/-- losses = [abs(t.pnl) for t in closed if t.pnl is not None and
t.pnl < 0]. -/
def lossesOf (closed : List TradeResult) : List ℚ :=
  closed.filterMap fun t =>
    match t.pnl with
    | some p => if p < 0 then some |p| else none
    | none => none

/-- Truthy numeric field extraction: Python `if t.field` keeps values
that are neither None nor 0. -/
def truthyVals (f : TradeResult → Option ℚ) (l : List TradeResult) : List ℚ :=
  l.filterMap fun t =>
    match f t with
    | some p => if p ≠ 0 then some p else none
    | none => none

/-- performance_calculator.py _calculate_max_consecutive streak scan. -/
def maxConsecAux (winning : Bool) : List TradeResult → ℕ → ℕ → ℕ
  | [], _, m => m
  | t :: rest, c, m =>
    if t.pnl ≠ none ∧ ((winning = true ∧ 0 < pnlD t) ∨ (winning = false ∧ pnlD t ≤ 0)) then
      maxConsecAux winning rest (c + 1) (max m (c + 1))
    else maxConsecAux winning rest 0 m

def calculate_max_consecutive (trades : List TradeResult) (winning : Bool) : ℕ :=
  maxConsecAux winning trades 0 0

/-- performance_calculator.py _calculate_drawdown running scan. -/
def drawdownAux : List TradeResult → ℚ → ℚ → ℚ → ℚ → ℚ × ℚ
  | [], _, _, ddA, ddP => (ddA, ddP)
  | t :: rest, cum, peak, ddA, ddP =>
    match t.pnl with
    | none => drawdownAux rest cum peak ddA ddP
    | some p =>
      let cum2 := cum + p
      let peak2 := max peak cum2
      let dd := peak2 - cum2
      let ddA2 := max ddA dd
      let ddP2 := if 0 < peak2 then max ddP (dd / peak2 * 100) else ddP
      drawdownAux rest cum2 peak2 ddA2 ddP2

def calculate_drawdown (trades : List TradeResult) : ℚ × ℚ :=
  drawdownAux trades 0 0 0 0

/-- Sample variance (statistics.stdev squared), for length >= 2. -/
def sampleVar (xs : List ℚ) : ℚ := varSum xs / ((xs.length : ℚ) - 1)

/-- performance_calculator.py _calculate_sharpe_ratio with the default
risk-free rate 0.02: the float value (mean/stdev)*sqrt(252) is exactly
mean*sqrt(252/var), encoded as a RatioVal. -/
def calculate_sharpe_ratio (returns : List ℚ) : RatioVal :=
  if returns.length < 2 then .fin 0 1
  else
    let excess := returns.map fun r => r - (1/50 : ℚ) / 252
    let m := npMean excess
    let v := sampleVar excess
    if 0 < v then .fin m (252 / v) else .fin 0 1

/-- performance_calculator.py _calculate_sortino_ratio: the denominator is
the root mean square of the negative excess returns; inf when there is no
negative excess return and the mean excess return is positive. -/
def calculate_sortino_ratio (returns : List ℚ) : RatioVal :=
  if returns.length < 2 then .fin 0 1
  else
    let excess := returns.map fun r => r - (1/50 : ℚ) / 252
    let m := npMean excess
    let negs := excess.filter fun r => decide (r < 0)
    if negs.isEmpty then (if 0 < m then .inf else .fin 0 1)
    else
      let msq := npMean (negs.map fun r => r ^ 2)
      if 0 < msq then .fin m (252 / msq) else .fin 0 1

/-- Insertion-ordered association-list update (models defaultdict entry
creation plus Python 3.7+ dict insertion order). -/
def assocUpdate {α : Type} (l : List (String × α)) (k : String) (d : α)
    (f : α → α) : List (String × α) :=
  match l with
  | [] => [(k, f d)]
  | (k0, v) :: rest =>
    if k0 = k then (k0, f v) :: rest else (k0, v) :: assocUpdate rest k d f

/-- performance_calculator.py _calculate_performance_by_asset. -/
def calculate_performance_by_asset (trades : List TradeResult) :
    List (String × PFValue) :=
  let wl : List (String × (ℚ × ℚ)) := trades.foldl (fun acc t =>
    if t.pnl ≠ none ∧ 0 < pnlD t then
      assocUpdate acc t.symbol (0, 0) fun p => (p.1 + pnlD t, p.2)
    else if t.pnl ≠ none then
      assocUpdate acc t.symbol (0, 0) fun p => (p.1, p.2 + |pnlD t|)
    else acc) []
  wl.map fun av =>
    (av.1, if 0 < av.2.2 then PFValue.fin (av.2.1 / av.2.2)
           else if 0 < av.2.1 then PFValue.inf else PFValue.fin 0)

/-- performance_calculator.py _calculate_performance_by_timeframe (only
called on closed trades with non-None pnl, which its t.pnl > 0 comparison
relies on). -/
def calculate_performance_by_timeframe (trades : List TradeResult) :
    List (String × TimeframePerf) :=
  let groups : List (String × List TradeResult) := trades.foldl (fun acc t =>
    assocUpdate acc t.timeframe [] fun l => l ++ [t]) []
  groups.filterMap fun g =>
    if g.2.isEmpty then none
    else
      let wins := g.2.filter fun t => decide (0 < pnlD t)
      let total := (g.2.map pnlD).sum
      some (g.1,
        { total_trades := g.2.length,
          win_rate := (wins.length : ℚ) / g.2.length * 100,
          total_pnl := total,
          avg_pnl := total / g.2.length })

/-- performance_calculator.py calculate_basic_metrics. -/
def calculate_basic_metrics (trades : List TradeResult) : PerformanceMetrics :=
  if trades.isEmpty then emptyMetrics 0
  else
    let closed := closedTradesOf trades
    if closed.isEmpty then emptyMetrics trades.length
    else
      let total := closed.length
      let winning := (closed.filter fun t => decide (t.pnl ≠ none ∧ 0 < pnlD t)).length
      let losing := (closed.filter fun t => decide (t.pnl ≠ none ∧ pnlD t < 0)).length
      let win_rate : ℚ := if 0 < total then (winning : ℚ) / total * 100 else 0
      let total_pnl := (closed.filterMap (·.pnl)).sum
      let total_pnl_percent := (truthyVals (·.pnl_percent) closed).sum
      let wins := winsOf closed
      let losses := lossesOf closed
      let avg_win := if wins.isEmpty then 0 else npMean wins
      let avg_loss := if losses.isEmpty then 0 else npMean losses
      let largest_win := if wins.isEmpty then 0 else listMax wins
      let largest_loss := if losses.isEmpty then 0 else listMax losses
      let gross_profit := wins.sum
      let gross_loss := losses.sum
      let profit_factor : PFValue :=
        if 0 < gross_loss then .fin (gross_profit / gross_loss) else .inf
      let dd := calculate_drawdown closed
      let returns := truthyVals (·.pnl_percent) closed
      let durations := truthyVals (·.hold_time_hours) closed
      let risk_rewards := truthyVals (fun t => some t.risk_reward_ratio) closed
      { total_trades := total,
        winning_trades := winning,
        losing_trades := losing,
        win_rate := win_rate,
        profit_factor := profit_factor,
        total_pnl := total_pnl,
        total_pnl_percent := total_pnl_percent,
        avg_win := avg_win,
        avg_loss := avg_loss,
        largest_win := largest_win,
        largest_loss := largest_loss,
        max_consecutive_wins := calculate_max_consecutive closed true,
        max_consecutive_losses := calculate_max_consecutive closed false,
        max_drawdown := dd.1,
        max_drawdown_percent := dd.2,
        sharpe_ratio := calculate_sharpe_ratio returns,
        sortino_ratio := calculate_sortino_ratio returns,
        calmar_ratio := if 0 < dd.2 then total_pnl_percent / dd.2 else 0,
        avg_trade_duration_hours := if durations.isEmpty then 0 else npMean durations,
        avg_risk_reward := if risk_rewards.isEmpty then 0 else npMean risk_rewards,
        expectancy := win_rate / 100 * avg_win - (100 - win_rate) / 100 * avg_loss,
        recovery_factor := if 0 < dd.1 then total_pnl / dd.1 else 0,
        profit_factor_by_asset := calculate_performance_by_asset closed,
        performance_by_timeframe := calculate_performance_by_timeframe closed }

/-- Strategy configuration after .get defaulting in _execute_backtest
(initial_balance 10000, risk_per_trade 0.02, min_risk_reward 3.0,
min_confluence_score 70; confluence_weights is fetched but never used by
the loop and is omitted here). -/
structure StrategyConfig where
  strategy_name : String
  initial_balance : ℚ
  risk_per_trade : ℚ
  min_risk_reward : ℚ
  min_confluence_score : ℚ
  deriving DecidableEq

/-- data_structures/back_testing/back_testing_results.py BacktestResult. -/
structure BacktestResult where
  strategy_name : String
  parameters : StrategyConfig
  start_date : ℚ
  end_date : ℚ
  total_trades : ℕ
  performance_metrics : PerformanceMetrics
  trades : List TradeResult
  confidence_score : ℚ
  parameter_stability : ℚ
  statistical_significance : ℚ
  deriving DecidableEq

/-- future_data = ohlc_data[i+1:i+51]: the next at most 50 candles. -/
def futureSlice (data : List OHLCData) (i : ℕ) : List OHLCData :=
  (data.drop (i + 1)).take 50

/-- The trailing window ohlc_data[i-window_size:i+1] with window_size =
100. -/
def windowSlice (data : List OHLCData) (i : ℕ) : List OHLCData :=
  (data.drop (i - 100)).take 101

/-- Body of one iteration of the sliding-window loop of _execute_backtest
in the non-error state. -/
def backtestStepOk (cfg : StrategyConfig) (data : List OHLCData)
    (balance : ℚ) (trades : List TradeResult) (i : ℕ) :
    Except PyError (ℚ × List TradeResult) :=
    let window := windowSlice data i
    let current_price := (window.getLast?.getD defaultBar).close
    match analyze_confluence window (get_technical_indicators window) with
    | .error e => .error e
    | .ok sig =>
      if (sig.signal_type = .BUY ∨ sig.signal_type = .SELL) ∧
         cfg.min_confluence_score ≤ sig.confluence_score ∧
         cfg.min_risk_reward ≤ sig.risk_reward_ratio then
        let risk_amount := balance * cfg.risk_per_trade
        let stop_distance := |current_price - sig.stop_loss|
        let position_size := if 0 < stop_distance then risk_amount / stop_distance else 0
        if 0 < position_size then
          match simulate_trade (window.getLast?.getD defaultBar) sig position_size
              (futureSlice data i) with
          | .error e => .error e
          | .ok none => .ok (balance, trades)
          | .ok (some t) => .ok (balance + t.pnl.getD 0, trades ++ [t])
        else .ok (balance, trades)
      else .ok (balance, trades)

/-- One iteration of the sliding-window loop of _execute_backtest,
threading (account_balance, trades); an exception raised inside the loop
aborts the whole backtest, modelled by the error state. -/
def backtestStep (cfg : StrategyConfig) (data : List OHLCData)
    (st : Except PyError (ℚ × List TradeResult)) (i : ℕ) :
    Except PyError (ℚ × List TradeResult) :=
  match st with
  | .error e => .error e
  | .ok s => backtestStepOk cfg data s.1 s.2 i

/-- back_testing_tool.py _execute_backtest: filter by optional date range,
require at least 100 bars (None otherwise), slide a 100-bar window one bar
at a time over range(100, len-10), accept qualifying confluence signals,
simulate each accepted trade on the next 50 candles, and assemble the
BacktestResult (the fields filled in later by the comprehensive-analysis
wrapper are 0). -/
def filterByDates (start_date end_date : Option ℚ)
    (ohlc_data : List OHLCData) : List OHLCData :=
  let d1 := match start_date with
    | some s => ohlc_data.filter fun b => decide (s ≤ b.timestamp)
    | none => ohlc_data
  match end_date with
  | some e => d1.filter fun b => decide (b.timestamp ≤ e)
  | none => d1

def execute_backtest (cfg : StrategyConfig) (ohlc_data : List OHLCData)
    (start_date end_date : Option ℚ) :
    Except PyError (Option BacktestResult) :=
  let data := filterByDates start_date end_date ohlc_data
  if data.length < 100 then .ok none
  else
    match (List.range' 100 (data.length - 110)).foldl (backtestStep cfg data)
        (.ok (cfg.initial_balance, [])) with
    | .error e => .error e
    | .ok s =>
      .ok (some
        { strategy_name := cfg.strategy_name,
          parameters := cfg,
          start_date := (data.headD defaultBar).timestamp,
          end_date := (data.getLast?.getD defaultBar).timestamp,
          total_trades := s.2.length,
          performance_metrics := calculate_basic_metrics s.2,
          trades := s.2,
          confidence_score := 0,
          parameter_stability := 0,
          statistical_significance := 0 })

/-- learning_engine.py local TradeResult placeholder: the fields its
analysis reads. The signal/pattern lists are truthiness-checked only. -/
structure LTradeResult where
  confluence_score : ℚ
  pnl : ℚ
  wyckoff_signals : List String
  smc_signals : List String
  patterns_detected : List String
  deriving DecidableEq

/-- learning_engine.py confluence weight set (a four-key dict in the
source). -/
structure ConfluenceWeights where
  wyckoff_weight : ℚ
  smc_weight : ℚ
  technical_weight : ℚ
  pattern_weight : ℚ
  deriving DecidableEq

/-- One optimization_history entry (timestamp omitted). -/
structure OptimizationRecord where
  old_weights : ConfluenceWeights
  new_weights : ConfluenceWeights
  high_conf_success : ℚ
  med_conf_success : ℚ
  low_conf_success : ℚ
  total_trades_analyzed : ℕ
  deriving DecidableEq

/-- learning_engine.py LearningEngine mutable state. -/
structure LearningEngine where
  confluence_weights : ConfluenceWeights
  optimization_history : List OptimizationRecord
  deriving DecidableEq

/-- _calculate_success_rate: win percentage; `t.pnl and t.pnl > 0` is
truthy exactly when pnl > 0. -/
def calculate_success_rate (trades : List LTradeResult) : ℚ :=
  if trades.isEmpty then 0
  else ((trades.filter fun t => decide (0 < t.pnl)).length : ℚ) / trades.length * 100

/-- _analyze_signal_effectiveness: win rate of the trades whose given
signal list is truthy (nonempty), 50 baseline when none. -/
def analyze_signal_effectiveness (trades : List LTradeResult)
    (field : LTradeResult → List String) : ℚ :=
  let signal_trades := trades.filter fun t => !(field t).isEmpty
  if signal_trades.isEmpty then 50 else calculate_success_rate signal_trades

/-- _analyze_pattern_effectiveness. -/
def analyze_pattern_effectiveness (trades : List LTradeResult) : ℚ :=
  let pattern_trades := trades.filter fun t => !t.patterns_detected.isEmpty
  if pattern_trades.isEmpty then 50 else calculate_success_rate pattern_trades

/-- learning_engine.py analyze_confluence_effectiveness: returns the new
weight set and the updated engine (the source returns the weights and
mutates the engine in place). Below 10 trades it returns the current
weights unchanged. -/
def analyze_confluence_effectiveness (engine : LearningEngine)
    (trades : List LTradeResult) : ConfluenceWeights × LearningEngine :=
  if trades.length < 10 then (engine.confluence_weights, engine)
  else
    let high := trades.filter fun t => decide (80 ≤ t.confluence_score)
    let med := trades.filter fun t => decide (70 ≤ t.confluence_score ∧ t.confluence_score < 80)
    let low := trades.filter fun t => decide (t.confluence_score < 70)
    let hs := calculate_success_rate high
    let ms := calculate_success_rate med
    let ls := calculate_success_rate low
    let w := analyze_signal_effectiveness trades (·.wyckoff_signals)
    let s := analyze_signal_effectiveness trades (·.smc_signals)
    let p := analyze_pattern_effectiveness trades
    let totalEff := w + s + p + 50
    let pre : ConfluenceWeights :=
      ⟨w / totalEff, s / totalEff, 50 / totalEff, p / totalEff⟩
    let wsum := pre.wyckoff_weight + pre.smc_weight + pre.pattern_weight +
      pre.technical_weight
    let newW : ConfluenceWeights :=
      ⟨pre.wyckoff_weight / wsum, pre.smc_weight / wsum,
       pre.technical_weight / wsum, pre.pattern_weight / wsum⟩
    let entry : OptimizationRecord :=
      ⟨engine.confluence_weights, newW, hs, ms, ls, trades.length⟩
    (newW, { confluence_weights := newW,
             optimization_history := engine.optimization_history ++ [entry] })

/-- The per-step recursion of Wilder smoothing in rsi: walks the
(data[i-1], data[i]) pairs for i from period+1 on, carrying the running
average gain/loss. -/
def rsiLoop (period : ℕ) (avgGain avgLoss : ℚ) :
    List (ℚ × ℚ) → List (Option ℚ)
  | [] => []
  | pc :: rest =>
    let gain := max 0 (pc.2 - pc.1)
    let loss := max 0 (pc.1 - pc.2)
    let ag := (avgGain * ((period : ℚ) - 1) + gain) / period
    let al := (avgLoss * ((period : ℚ) - 1) + loss) / period
    (if al = 0 then some 100 else some (100 - 100 / (1 + ag / al))) ::
      rsiLoop period ag al rest

/-- technical_indicator.py TechnicalIndicators.rsi. np.nan entries are
modelled as none. Note the short-data branch returns a list of the input
length while the main branch returns period+2 seeded entries plus one per
remaining index, i.e. length n+1. -/
def rsi (data : List ℚ) (period : ℕ) : List (Option ℚ) :=
  if data.length < period + 1 then List.replicate data.length none
  else
    let changes := (data.zip (data.drop 1)).map fun pc => pc.2 - pc.1
    let gains := changes.map (max 0)
    let losses := changes.map fun c => max 0 (-c)
    let avgGain := npMean (gains.take period)
    let avgLoss := npMean (losses.take period)
    let first : Option ℚ :=
      if avgLoss = 0 then some 100
      else some (100 - 100 / (1 + avgGain / avgLoss))
    List.replicate (period + 1) (none : Option ℚ) ++ [first] ++
      rsiLoop period avgGain avgLoss ((data.drop period).zip (data.drop (period + 1)))

/-- Modelled from the spec: strict swing high, the reading in which the
centre bar strictly exceeds every other bar of the ±5 window (the source
uses non-strict comparisons). For comparison with isSwingHigh. -/
def isStrictSwingHigh (highs : List ℚ) (i : ℕ) : Bool :=
  (List.range' (i - 5) 11).all fun j =>
    j == i || decide (highs.getD j 0 < highs.getD i 0)

/-- Modelled from the spec: the strict-extremum swing-high price list. -/
def strictSwingHighPrices (bars : List OHLCData) : List ℚ :=
  ((swingScanIdxs bars.length).filter (isStrictSwingHigh (highsOf bars))).map
    fun i => (highsOf bars).getD i 0

/-- Modelled from the spec: the bullish half of the claimed BOS trigger -
the current close exceeds the prior (second-most-recent) strict swing
high by more than 0.1 percent. For comparison with
detect_market_structure_shift. -/
def specStrictBullishBOS (bars : List OHLCData) : Bool :=
  let sh := strictSwingHighPrices bars
  decide (2 ≤ sh.length) &&
    decide ((secondLast sh).getD 0 * (1001/1000 : ℚ) < (closesOf bars).getLast?.getD 0)

/-- Modelled from the spec: does a bar cross the stop level. -/
def crossesStop (tt : SignalType) (stop : ℚ) (c : OHLCData) : Bool :=
  (tt == .BUY && decide (c.low ≤ stop)) || (tt == .SELL && decide (stop ≤ c.high))

/-- Modelled from the spec: does a bar cross the target level. -/
def crossesTarget (tt : SignalType) (tp : ℚ) (c : OHLCData) : Bool :=
  (tt == .BUY && decide (tp ≤ c.high)) || (tt == .SELL && decide (c.low ≤ tp))

/-- Modelled from the spec: exit at the first scanned bar whose range
crosses the stop or the target, resolving the stop first within that bar;
if no bar crosses, exit at the close of the last scanned bar. For
comparison with tradeExit. -/
def specFirstCrossExit (tt : SignalType) (stop tp : ℚ)
    (fd : List OHLCData) : Option (ℚ × ℚ × ExitReason) :=
  match fd.find? fun c => crossesStop tt stop c || crossesTarget tt tp c with
  | some c =>
    if crossesStop tt stop c then some (stop, c.timestamp, .STOP_LOSS)
    else some (tp, c.timestamp, .TAKE_PROFIT)
  | none => fd.getLast?.map fun c => (c.close, c.timestamp, .TIMEOUT)

/-- Entry times of the trades of a backtest outcome are strictly
increasing (trivially true of the failure outcomes). -/
def entriesIncreasing (res : Except PyError (Option BacktestResult)) : Prop :=
  match res with
  | .ok (some r) => List.Pairwise (· < ·) (r.trades.map (·.entry_time))
  | _ => True

/-- Bar timestamps are strictly increasing (the time-ascending bar-series
convention of the data model). -/
def tsAscending (data : List OHLCData) : Prop :=
  List.Pairwise (· < ·) (data.map (·.timestamp))

/-- Intervals of two trades do not overlap in the sense of the claim: the
later entry does not precede the earlier exit. -/
def tradesNonOverlapping (t1 t2 : TradeResult) : Bool :=
  match t1.exit_time with
  | some x => decide (x ≤ t2.entry_time)
  | none => true

/-- Concrete input: a valid 20-bar series (constant prices, positive
volume). -/
def exBars20 : List OHLCData :=
  (List.range 20).map fun k =>
    { symbol := "EURUSD", timeframe := "1H", timestamp := (k : ℚ),
      openPrice := 100, high := 101, low := 99, close := 100, volume := 1000 }

/-- Sawtooth oscillation used by the 112-bar backtest input. -/
def oscVal : ℕ → ℚ
  | 0 => 0
  | 1 => 1/2
  | 2 => 1
  | 3 => 3/2
  | 4 => 1
  | 5 => 1/2
  | 6 => 0
  | 7 => -(1/2)
  | 8 => -1
  | 9 => -(3/2)
  | 10 => -1
  | _ => -(1/2)

/-- Concrete backtest input bar k: a rising sawtooth for 90 bars, a steep
11-bar rally, then flat bars inside both trade corridors; volume steps up
at bar 81 so every 101-bar window classifies as INCREASING volume. -/
def exBar3 (k : ℕ) : OHLCData :=
  let c : ℚ :=
    if k ≤ 89 then 100 + (k : ℚ) / 10 + oscVal (k % 12)
    else if k ≤ 100 then 111 + ((k : ℚ) - 90)
    else 243/2
  { symbol := "EURUSD", timeframe := "1H", timestamp := (k : ℚ),
    openPrice := c, high := c + 1/5, low := c - 1/5, close := c,
    volume := if 81 ≤ k then 1300 else 1000 }

/-- Concrete input: the 112-bar series on which the backtest loop opens a
second trade one bar after the first while the first is still open. -/
def exBars3 : List OHLCData := (List.range 112).map exBar3

/-- Strategy configuration used with exBars3. -/
def exCfg : StrategyConfig :=
  { strategy_name := "WyckoffSMC", initial_balance := 10000,
    risk_per_trade := 1/50, min_risk_reward := 1, min_confluence_score := 60 }

/-- Concrete input bar k for the C8 counterexample: strictly increasing
lows (so the code finds no swing lows and returns no finding), strict
swing highs only at bars 6 and 12, and a final close 111 that clears the
prior strict swing high 110 by more than 0.1 percent. -/
def exBar8 (k : ℕ) : OHLCData :=
  { symbol := "EURUSD", timeframe := "1H", timestamp := (k : ℚ),
    openPrice := 100,
    high := if k = 6 then 110 else if k = 12 then 108
            else if k = 21 then 556/5 else 100 + (k : ℚ) / 10,
    low := 50 + (k : ℚ),
    close := if k = 21 then 111 else 100,
    volume := 1000 }

def exBars8 : List OHLCData := (List.range 22).map exBar8

/-- Concrete input: 100 flat bars (the backtest loop runs zero
iterations but the length guard passes). -/
def exBars100 : List OHLCData :=
  (List.range 100).map fun k =>
    { symbol := "EURUSD", timeframe := "1H", timestamp := (k : ℚ),
      openPrice := 100, high := 101, low := 99, close := 100, volume := 1000 }

/-- Concrete input: a single trade that is still OPEN (null pnl). -/
def exOpenTrade : TradeResult :=
  { trade_id := 0, symbol := "EURUSD", timeframe := "1H", entry_time := 0,
    exit_time := none, entry_price := 100, exit_price := none,
    position_size := 1, trade_type := .BUY, status := .OPEN, pnl := none,
    pnl_percent := none, stop_loss := 99, take_profit := 103,
    patterns_detected := [], confluence_score := 70, wyckoff_signals := [],
    smc_signals := [], technical_indicators := [], risk_reward_ratio := 3,
    hold_time_hours := none, max_favorable_excursion := none,
    max_adverse_excursion := none, trade_notes := .TIMEOUT }

/-- Concrete input: a single CLOSED trade whose pnl is exactly 0 (gross
profit and gross loss both 0). -/
def exZeroPnlTrade : TradeResult :=
  { trade_id := 1, symbol := "EURUSD", timeframe := "1H", entry_time := 0,
    exit_time := some 5, entry_price := 100, exit_price := some 100,
    position_size := 1, trade_type := .BUY, status := .CLOSED, pnl := some 0,
    pnl_percent := some 0, stop_loss := 99, take_profit := 103,
    patterns_detected := [], confluence_score := 70, wyckoff_signals := [],
    smc_signals := [], technical_indicators := [], risk_reward_ratio := 3,
    hold_time_hours := some 5, max_favorable_excursion := none,
    max_adverse_excursion := none, trade_notes := .TIMEOUT }

/-- Concrete input: a CLOSED trade with pnl q. -/
def exClosedTrade (q : ℚ) : TradeResult :=
  { exZeroPnlTrade with trade_id := q, pnl := some q, pnl_percent := some q }

/-- Concrete learning-engine trade with the given score and pnl and a
nonempty wyckoff signal list. -/
def exLTrade (score pnl : ℚ) : LTradeResult :=
  { confluence_score := score, pnl := pnl, wyckoff_signals := ["ACC"],
    smc_signals := [], patterns_detected := ["OB"] }

/-- Concrete input: ten learning-engine trades. -/
def exLTrades10 : List LTradeResult :=
  [exLTrade 85 5, exLTrade 85 (-2), exLTrade 75 3, exLTrade 75 (-1),
   exLTrade 65 2, exLTrade 65 (-3), exLTrade 82 1, exLTrade 72 0,
   exLTrade 62 4, exLTrade 90 (-1)]

/-- The default learning-engine state (weights 40/30/20/10). -/
def exEngine : LearningEngine :=
  { confluence_weights :=
      { wyckoff_weight := 2/5, smc_weight := 3/10,
        technical_weight := 1/5, pattern_weight := 1/10 },
    optimization_history := [] }

/-- Concrete input: a 22-bar series with two weak swing highs (bars 8 and
15), two weak swing lows (bars 5 and 11) and a final close above the
second-most-recent swing high by more than 0.1 percent, so the code
detects a bullish BOS. -/
def exBarsBOSClose : List ℚ :=
  [100, 99, 98, 97, 96, 95, 96, 97, 98, 97,
   96, 94, 95, 96, 97, 98, 97, 96, 191/2, 476/5, 951/10, 99]

def exBarsBOS : List OHLCData :=
  (List.range 22).map fun k =>
    let c := exBarsBOSClose.getD k 0
    { symbol := "EURUSD", timeframe := "1H", timestamp := (k : ℚ),
      openPrice := c, high := c + 1/5, low := c - 1/5, close := c,
      volume := 1000 }

/-- Bar sanity: positive prices and volume, low below and high above both
open and close. -/
def validBar (b : OHLCData) : Bool :=
  decide (0 < b.low ∧ b.low ≤ b.openPrice ∧ b.openPrice ≤ b.high ∧
    b.low ≤ b.close ∧ b.close ≤ b.high ∧ 0 < b.volume)

/-- Check for the C1 failing input: exBars20 is a valid 20-bar series on
which analyze_confluence raises the KeyError. -/
def c1KeyErrorCheck : Bool :=
  exBars20.all validBar &&
    (match analyze_confluence exBars20 none with
     | .error .keyError => true
     | _ => false)

/-- Check for the C3 counterexample: the backtest on exBars3 produces
exactly two trades and the second trade is entered strictly before the
first one exits. -/
def c3OverlapCheck : Bool :=
  exBars3.all validBar &&
    (match execute_backtest exCfg exBars3 none none with
     | .ok (some r) =>
       match r.trades with
       | [t1, t2] => !tradesNonOverlapping t1 t2
       | _ => false
     | _ => false)

-- Batteries seals the Rat arithmetic definitions against elaborator
-- unfolding; computations on concrete rational inputs below need them
-- unfolded (the kernel itself never honours the reducibility attribute).
attribute [local semireducible] Rat.add Rat.mul Rat.sub Rat.inv Rat.ofScientific

theorem rsiLoop_length (period : ℕ) :
    ∀ (ag al : ℚ) (l : List (ℚ × ℚ)), (rsiLoop period ag al l).length = l.length := by
  intro ag al l
  induction l generalizing ag al with
  | nil => rfl
  | cons pc rest ih => simp [rsiLoop, ih]

/-- C10: for a price series of length n >= period+1 (period >= 1), rsi
returns a list of length n+1, one longer than its input, while for
n < period+1 it returns a list of n undefined (none) sentinels; so rsi
violates the same-length convention of the other indicator functions. -/
theorem C10_rsi_length_convention (data : List ℚ) (period : ℕ) :
    (1 ≤ period → period + 1 ≤ data.length →
      (rsi data period).length = data.length + 1) ∧
    (data.length < period + 1 →
      rsi data period = List.replicate data.length none) := by
  constructor
  · intro _ hlen
    unfold rsi
    rw [if_neg (by omega)]
    simp only [List.length_append, List.length_replicate, List.length_cons,
      List.length_nil, rsiLoop_length, List.length_zip, List.length_drop]
    omega
  · intro hlen
    unfold rsi
    rw [if_pos hlen]

/-- Closed witness for C10 at concrete inputs: a 16-element series with
period 14 yields 17 outputs, and a 3-element series yields 3 sentinels. -/
theorem C10_witness :
    (rsi ((List.range 16).map fun k => (k : ℚ)) 14).length = 17 ∧
    rsi [(1 : ℚ), 2, 3] 14 = List.replicate 3 none :=
  ⟨(C10_rsi_length_convention ((List.range 16).map fun k => (k : ℚ)) 14).1
      (by decide) (by decide),
   (C10_rsi_length_convention [(1 : ℚ), 2, 3] 14).2 (by decide)⟩

/-- C7: for every bar series with fewer than 20 bars, analyze_confluence
returns the NEUTRAL sentinel signal: score 0, entry/stop/target 0, and
the explanatory not-enough-data reasoning. -/
theorem C7_sentinel_below_20_bars (bars : List OHLCData)
    (ti : Option TechnicalIndicatorsMap) (h : bars.length < 20) :
    analyze_confluence bars ti = .ok insufficientDataSignal ∧
    insufficientDataSignal.signal_type = .NEUTRAL ∧
    insufficientDataSignal.confluence_score = 0 ∧
    insufficientDataSignal.entry_price = 0 ∧
    insufficientDataSignal.stop_loss = 0 ∧
    insufficientDataSignal.take_profit = 0 ∧
    insufficientDataSignal.reasoning = [.notEnoughData] := by
  refine ⟨?_, rfl, rfl, rfl, rfl, rfl, rfl⟩
  unfold analyze_confluence
  rw [if_pos h]

/-- Closed witness for C7 at the empty bar series. -/
theorem C7_witness :
    analyze_confluence [] none = .ok insufficientDataSignal ∧
    insufficientDataSignal.signal_type = .NEUTRAL ∧
    insufficientDataSignal.confluence_score = 0 :=
  ⟨(C7_sentinel_below_20_bars [] none (by decide)).1,
   (C7_sentinel_below_20_bars [] none (by decide)).2.1,
   (C7_sentinel_below_20_bars [] none (by decide)).2.2.1⟩

/-- C1: the claim says analyze_confluence never raises on valid bars and
returns the sentinel on insufficient data; in fact, on any valid series
of 20 to 99 bars the Wyckoff schematic is the INSUFFICIENT_DATA dict
without the expected_direction key and the confluence analyzer raises a
KeyError reading it - here evaluated at a valid 20-bar input. -/
theorem C1_analyze_confluence_raises_keyerror_on_valid_20_bars :
    c1KeyErrorCheck = true := by decide

theorem finalize_bounds (cur atr ts : ℚ) (st0 : SignalType) (raw : ℚ)
    (wy smc : List PatternLabel) (ind : List IndicatorLabel)
    (rs : List ReasonPart) :
    0 ≤ (finalizeConfluence cur atr ts st0 raw wy smc ind rs).confluence_score ∧
    (finalizeConfluence cur atr ts st0 raw wy smc ind rs).confluence_score ≤ 100 ∧
    ((finalizeConfluence cur atr ts st0 raw wy smc ind rs).confluence_score < 60 →
      (finalizeConfluence cur atr ts st0 raw wy smc ind rs).signal_type = .NEUTRAL) := by
  unfold finalizeConfluence
  refine ⟨le_min (by norm_num) (le_max_left _ _), min_le_left _ _, fun h => ?_⟩
  simp only at h ⊢
  rw [if_pos h]

/-- C2: whenever analyze_confluence returns a signal, its confluence
score lies in [0, 100], and a score below 60 forces the signal type to
NEUTRAL (the threshold is a hard gate). -/
theorem C2_confluence_score_bounds_and_neutral_gate
    (bars : List OHLCData) (ti : Option TechnicalIndicatorsMap)
    (sig : ConfluenceSignal) (h : analyze_confluence bars ti = .ok sig) :
    0 ≤ sig.confluence_score ∧ sig.confluence_score ≤ 100 ∧
    (sig.confluence_score < 60 → sig.signal_type = .NEUTRAL) := by
  unfold analyze_confluence at h
  split at h
  · injection h with h0
    subst h0
    exact ⟨le_refl 0, by norm_num [insufficientDataSignal], fun _ => rfl⟩
  · split at h
    · exact Except.noConfusion h
    · split at h
      · exact Except.noConfusion h
      · split at h
        · exact Except.noConfusion h
        · injection h with h0
          subst h0
          exact finalize_bounds _ _ _ _ _ _ _ _ _

/-- Closed witness for C2 at the empty series (where it returns the
sentinel signal). -/
theorem C2_witness :
    analyze_confluence [] none = .ok insufficientDataSignal ∧
    0 ≤ insufficientDataSignal.confluence_score ∧
    insufficientDataSignal.confluence_score ≤ 100 ∧
    (insufficientDataSignal.confluence_score < 60 →
      insufficientDataSignal.signal_type = .NEUTRAL) :=
  ⟨rfl, C2_confluence_score_bounds_and_neutral_gate [] none insufficientDataSignal rfl⟩

/-- C4 counterexample: on a list holding one OPEN trade, the returned
bundle is not the all-zero bundle - its total_trades field is 1, the
number of input trades, not 0. -/
theorem C4_counterexample_open_trade_total_nonzero :
    (calculate_basic_metrics [exOpenTrade]).total_trades = 1 ∧
    calculate_basic_metrics [exOpenTrade] ≠ emptyMetrics 0 := by decide

/-- C4 amended: on any trade list with no CLOSED trade with non-null pnl
(in particular the empty list or an all-OPEN list), calculate_basic_metrics
raises no exception and returns the zero bundle in every field except
total_trades, which is the number of input trades (0 for the empty
list). -/
theorem C4_amended_zero_bundle_with_total_count (trades : List TradeResult)
    (h : ∀ t ∈ trades, ¬(t.status = .CLOSED ∧ t.pnl ≠ none)) :
    calculate_basic_metrics trades = emptyMetrics trades.length := by
  have hcl : closedTradesOf trades = [] := by
    simp only [closedTradesOf, List.filter_eq_nil_iff]
    intro a ha
    simpa using h a ha
  cases trades with
  | nil => rfl
  | cons a l =>
    simp [calculate_basic_metrics, hcl]

/-- Closed witness for C4 at a single OPEN trade. -/
theorem C4_witness :
    calculate_basic_metrics [exOpenTrade] = emptyMetrics 1 :=
  C4_amended_zero_bundle_with_total_count [exOpenTrade] (by decide)

/-- C5 counterexample: a single CLOSED trade with pnl exactly 0 has
gross profit 0 (and gross loss 0), yet the code returns profit_factor
+infinity, not the 0 the claim requires when gross profit is 0. -/
theorem C5_counterexample_zero_pnl_gives_inf :
    (winsOf (closedTradesOf [exZeroPnlTrade])).sum = 0 ∧
    (lossesOf (closedTradesOf [exZeroPnlTrade])).sum = 0 ∧
    (calculate_basic_metrics [exZeroPnlTrade]).profit_factor = PFValue.inf ∧
    PFValue.inf ≠ PFValue.fin 0 := by decide

/-- C5 amended: whenever at least one CLOSED trade with non-null pnl is
present, profit_factor is gross_profit/gross_loss if gross_loss > 0
(hence 0 when gross_profit = 0 < gross_loss) and +infinity whenever
gross_loss = 0, even when gross_profit is also 0; with no qualifying
trade the early all-zero bundle carries profit_factor 0. -/
theorem C5_amended_profit_factor_formula (trades : List TradeResult)
    (h : closedTradesOf trades ≠ []) :
    (calculate_basic_metrics trades).profit_factor =
      if 0 < (lossesOf (closedTradesOf trades)).sum then
        PFValue.fin ((winsOf (closedTradesOf trades)).sum /
          (lossesOf (closedTradesOf trades)).sum)
      else PFValue.inf := by
  have htr : trades ≠ [] := by
    intro e
    exact h (by simp [e, closedTradesOf])
  have h1 : ¬(trades.isEmpty = true) := by
    simpa [List.isEmpty_iff] using htr
  have h2 : ¬((closedTradesOf trades).isEmpty = true) := by
    simpa [List.isEmpty_iff] using h
  simp only [calculate_basic_metrics, if_neg h1, if_neg h2]

/-- Closed witness for C5 at one winning and one losing closed trade
(gross profit 5, gross loss 2). -/
theorem C5_witness :
    closedTradesOf [exClosedTrade 5, exClosedTrade (-2)] ≠ [] ∧
    (calculate_basic_metrics [exClosedTrade 5, exClosedTrade (-2)]).profit_factor =
      PFValue.fin (5/2) := by
  refine ⟨by decide, ?_⟩
  rw [C5_amended_profit_factor_formula [exClosedTrade 5, exClosedTrade (-2)] (by decide)]
  decide

theorem success_rate_nonneg (trades : List LTradeResult) :
    0 ≤ calculate_success_rate trades := by
  unfold calculate_success_rate
  split
  · exact le_refl 0
  · positivity

theorem signal_eff_nonneg (trades : List LTradeResult)
    (field : LTradeResult → List String) :
    0 ≤ analyze_signal_effectiveness trades field := by
  simp only [analyze_signal_effectiveness]
  split
  · norm_num
  · exact success_rate_nonneg _

theorem pattern_eff_nonneg (trades : List LTradeResult) :
    0 ≤ analyze_pattern_effectiveness trades := by
  simp only [analyze_pattern_effectiveness]
  split
  · norm_num
  · exact success_rate_nonneg _

theorem newWeights_props (w s p : ℚ) (hw : 0 ≤ w) (hs : 0 ≤ s) (hp : 0 ≤ p) :
    w / (w + s + p + 50) /
        (w / (w + s + p + 50) + s / (w + s + p + 50) + p / (w + s + p + 50) +
          50 / (w + s + p + 50)) +
      s / (w + s + p + 50) /
        (w / (w + s + p + 50) + s / (w + s + p + 50) + p / (w + s + p + 50) +
          50 / (w + s + p + 50)) +
      50 / (w + s + p + 50) /
        (w / (w + s + p + 50) + s / (w + s + p + 50) + p / (w + s + p + 50) +
          50 / (w + s + p + 50)) +
      p / (w + s + p + 50) /
        (w / (w + s + p + 50) + s / (w + s + p + 50) + p / (w + s + p + 50) +
          50 / (w + s + p + 50)) = 1 ∧
    0 ≤ w / (w + s + p + 50) /
        (w / (w + s + p + 50) + s / (w + s + p + 50) + p / (w + s + p + 50) +
          50 / (w + s + p + 50)) ∧
    0 ≤ s / (w + s + p + 50) /
        (w / (w + s + p + 50) + s / (w + s + p + 50) + p / (w + s + p + 50) +
          50 / (w + s + p + 50)) ∧
    0 ≤ 50 / (w + s + p + 50) /
        (w / (w + s + p + 50) + s / (w + s + p + 50) + p / (w + s + p + 50) +
          50 / (w + s + p + 50)) ∧
    0 ≤ p / (w + s + p + 50) /
        (w / (w + s + p + 50) + s / (w + s + p + 50) + p / (w + s + p + 50) +
          50 / (w + s + p + 50)) := by
  have hT : (0 : ℚ) < w + s + p + 50 := by linarith
  have hW : w / (w + s + p + 50) + s / (w + s + p + 50) + p / (w + s + p + 50) +
      50 / (w + s + p + 50) = 1 := by
    rw [div_add_div_same, div_add_div_same, div_add_div_same, div_self hT.ne']
  rw [hW]
  simp only [div_one]
  refine ⟨?_, div_nonneg hw hT.le, div_nonneg hs hT.le, div_nonneg (by norm_num) hT.le,
    div_nonneg hp hT.le⟩
  rw [div_add_div_same, div_add_div_same, div_add_div_same,
    div_eq_one_iff_eq hT.ne']
  ring

/-- C6: an optimization call on at least 10 trades returns a four-field
weight set with nonnegative entries summing exactly to 1; below 10
trades the call is a no-op returning the current weights. -/
theorem C6_weights_sum_one_nonneg_and_noop_below_10
    (engine : LearningEngine) (trades : List LTradeResult) :
    (trades.length < 10 →
      (analyze_confluence_effectiveness engine trades).1 = engine.confluence_weights) ∧
    (10 ≤ trades.length →
      ((analyze_confluence_effectiveness engine trades).1.wyckoff_weight +
        (analyze_confluence_effectiveness engine trades).1.smc_weight +
        (analyze_confluence_effectiveness engine trades).1.technical_weight +
        (analyze_confluence_effectiveness engine trades).1.pattern_weight = 1) ∧
      0 ≤ (analyze_confluence_effectiveness engine trades).1.wyckoff_weight ∧
      0 ≤ (analyze_confluence_effectiveness engine trades).1.smc_weight ∧
      0 ≤ (analyze_confluence_effectiveness engine trades).1.technical_weight ∧
      0 ≤ (analyze_confluence_effectiveness engine trades).1.pattern_weight) := by
  constructor
  · intro h
    unfold analyze_confluence_effectiveness
    rw [if_pos h]
  · intro h
    have hn : ¬trades.length < 10 := by omega
    simp only [analyze_confluence_effectiveness, if_neg hn]
    exact newWeights_props
      (analyze_signal_effectiveness trades (·.wyckoff_signals))
      (analyze_signal_effectiveness trades (·.smc_signals))
      (analyze_pattern_effectiveness trades)
      (signal_eff_nonneg _ _) (signal_eff_nonneg _ _) (pattern_eff_nonneg _)

/-- Closed witness for C6: a 3-trade call is a no-op, and a 10-trade
call returns weights summing to 1. -/
theorem C6_witness :
    (analyze_confluence_effectiveness exEngine (exLTrades10.take 3)).1 =
      exEngine.confluence_weights ∧
    ((analyze_confluence_effectiveness exEngine exLTrades10).1.wyckoff_weight +
      (analyze_confluence_effectiveness exEngine exLTrades10).1.smc_weight +
      (analyze_confluence_effectiveness exEngine exLTrades10).1.technical_weight +
      (analyze_confluence_effectiveness exEngine exLTrades10).1.pattern_weight = 1) :=
  ⟨(C6_weights_sum_one_nonneg_and_noop_below_10 exEngine (exLTrades10.take 3)).1
      (by decide),
   ((C6_weights_sum_one_nonneg_and_noop_below_10 exEngine exLTrades10).2
      (by decide)).1⟩

theorem tradeExitScan_eq_find (tt : SignalType) (stop tp : ℚ) :
    ∀ fd : List OHLCData,
      tradeExitScan tt stop tp fd =
        (fd.find? fun c => crossesStop tt stop c || crossesTarget tt tp c).map
          fun c =>
            if crossesStop tt stop c then (stop, c.timestamp, ExitReason.STOP_LOSS)
            else (tp, c.timestamp, ExitReason.TAKE_PROFIT) := by
  intro fd
  induction fd with
  | nil => rfl
  | cons c rest ih =>
    cases tt with
    | BUY =>
      by_cases h1 : c.low ≤ stop
      · simp [tradeExitScan, crossesStop, crossesTarget, h1, List.find?_cons]
      · by_cases h2 : tp ≤ c.high
        · simp [tradeExitScan, crossesStop, crossesTarget, h1, h2, List.find?_cons]
        · simpa [tradeExitScan, crossesStop, crossesTarget, h1, h2, List.find?_cons]
            using ih
    | SELL =>
      by_cases h1 : stop ≤ c.high
      · simp [tradeExitScan, crossesStop, crossesTarget, h1, List.find?_cons]
      · by_cases h2 : c.low ≤ tp
        · simp [tradeExitScan, crossesStop, crossesTarget, h1, h2, List.find?_cons]
        · simpa [tradeExitScan, crossesStop, crossesTarget, h1, h2, List.find?_cons]
            using ih
    | NEUTRAL =>
      simpa [tradeExitScan, crossesStop, crossesTarget, List.find?_cons] using ih

theorem tradeExit_eq_spec (tt : SignalType) (stop tp : ℚ) (fd : List OHLCData) :
    tradeExit tt stop tp fd = specFirstCrossExit tt stop tp fd := by
  unfold tradeExit specFirstCrossExit
  rw [tradeExitScan_eq_find]
  cases hf : fd.find? fun c => crossesStop tt stop c || crossesTarget tt tp c with
  | none => simp
  | some c =>
    by_cases hcs : crossesStop tt stop c
    · simp [hcs]
    · simp [hcs]

/-- C9: the trade simulation exit search equals the first-crossing
semantics - scanning the future bars in order, it exits at the first bar
whose range crosses the stop or the target, resolving the stop before the
target within that bar for both BUY and SELL, and times out at the close
of the last scanned bar when no bar crosses; and the future slice handed
to it by the backtest loop holds at most the next 50 bars. -/
theorem C9_exit_first_cross_stop_priority_within_50_bars :
    (∀ (tt : SignalType) (stop tp : ℚ) (fd : List OHLCData),
      tradeExit tt stop tp fd = specFirstCrossExit tt stop tp fd) ∧
    (∀ (data : List OHLCData) (i : ℕ), (futureSlice data i).length ≤ 50) :=
  ⟨tradeExit_eq_spec, fun data i => by
    simp [futureSlice, List.length_take_le]⟩

/-- C8 counterexample: on exBars8 the strict-extremum reading of the
claim predicts a bullish BOS finding (two strict swing highs exist and
the close clears the prior one by more than 0.1 percent), but the code
finds no swing lows (the weak ±5 test needs low <= every neighbour and
the lows rise strictly), returns early, and produces no finding at
all. -/
theorem C8_counterexample_strict_reading_fails :
    specStrictBullishBOS exBars8 = true ∧
    (detect_market_structure_shift exBars8).detected = false ∧
    (detect_market_structure_shift exBars8).shifts = [] := by decide

/-- C8 amended: a BOS finding is produced exactly when the series has at
least 20 bars, the weak (ties-allowed) ±5-window swing scan yields at
least two swing highs AND at least two swing lows, and the current close
exceeds the second-most-recent swing high by more than 0.1 percent
(bullish) or falls below the second-most-recent swing low by more than
0.1 percent (bearish); every finding carries confidence 85. -/
theorem C8_amended_bos_characterization (bars : List OHLCData) :
    ((∃ s ∈ (detect_market_structure_shift bars).shifts,
        s.shiftType = .BULLISH_BOS) ↔
      (20 ≤ bars.length ∧ 2 ≤ (swingHighPrices bars).length ∧
        2 ≤ (swingLowPrices bars).length ∧
        (secondLast (swingHighPrices bars)).getD 0 * (1001/1000 : ℚ) <
          (closesOf bars).getLast?.getD 0)) ∧
    ((∃ s ∈ (detect_market_structure_shift bars).shifts,
        s.shiftType = .BEARISH_BOS) ↔
      (20 ≤ bars.length ∧ 2 ≤ (swingHighPrices bars).length ∧
        2 ≤ (swingLowPrices bars).length ∧
        (closesOf bars).getLast?.getD 0 <
          (secondLast (swingLowPrices bars)).getD 0 * (999/1000 : ℚ))) ∧
    (∀ s ∈ (detect_market_structure_shift bars).shifts, s.confidence = 85) ∧
    ((detect_market_structure_shift bars).detected = true ↔
      (detect_market_structure_shift bars).shifts ≠ []) := by
  by_cases h20 : bars.length < 20
  · simp only [detect_market_structure_shift, if_pos h20]
    refine ⟨?_, ?_, ?_, ?_⟩
    · simp
      intro h
      omega
    · simp
      intro h
      omega
    · simp
    · simp
  · by_cases hsw : (swingHighPrices bars).length < 2 ∨ (swingLowPrices bars).length < 2
    · simp only [detect_market_structure_shift, if_neg h20, if_pos hsw]
      refine ⟨?_, ?_, ?_, ?_⟩
      · simp
        intro _ h1 h2
        omega
      · simp
        intro _ h1 h2
        omega
      · simp
      · simp
    · simp only [detect_market_structure_shift, if_neg h20, if_neg hsw]
      by_cases hbull : (secondLast (swingHighPrices bars)).getD 0 * (1001/1000 : ℚ) <
          (closesOf bars).getLast?.getD 0
      · by_cases hbear : (closesOf bars).getLast?.getD 0 <
            (secondLast (swingLowPrices bars)).getD 0 * (999/1000 : ℚ)
        · simp only [if_pos hbull, if_pos hbear]
          refine ⟨?_, ?_, ?_, ?_⟩
          · exact iff_of_true (by simp) ⟨by omega, by omega, by omega, hbull⟩
          · exact iff_of_true (by simp) ⟨by omega, by omega, by omega, hbear⟩
          · simp
          · simp
        · simp only [if_pos hbull, if_neg hbear]
          refine ⟨?_, ?_, ?_, ?_⟩
          · exact iff_of_true (by simp) ⟨by omega, by omega, by omega, hbull⟩
          · simp [hbear]
          · simp
          · simp
      · by_cases hbear : (closesOf bars).getLast?.getD 0 <
            (secondLast (swingLowPrices bars)).getD 0 * (999/1000 : ℚ)
        · simp only [if_neg hbull, if_pos hbear]
          refine ⟨?_, ?_, ?_, ?_⟩
          · simp [hbull]
          · exact iff_of_true (by simp) ⟨by omega, by omega, by omega, hbear⟩
          · simp
          · simp
        · simp only [if_neg hbull, if_neg hbear]
          refine ⟨?_, ?_, ?_, ?_⟩
          · simp [hbull]
          · simp [hbear]
          · simp
          · simp

/-- Closed witness for C8 on exBarsBOS, a series with two weak swing
highs and two weak swing lows whose final close clears the prior swing
high: a bullish BOS finding is produced with confidence 85. -/
theorem C8_witness :
    (∃ s ∈ (detect_market_structure_shift exBarsBOS).shifts,
      s.shiftType = .BULLISH_BOS) ∧
    (∀ s ∈ (detect_market_structure_shift exBarsBOS).shifts, s.confidence = 85) :=
  ⟨(C8_amended_bos_characterization exBarsBOS).1.mpr (by decide),
   fun s hs => (C8_amended_bos_characterization exBarsBOS).2.2.1 s hs⟩

theorem filterByDates_sublist (sd ed : Option ℚ) (l : List OHLCData) :
    (filterByDates sd ed l).Sublist l := by
  cases sd <;> cases ed <;>
    simp only [filterByDates] <;>
    first
      | exact List.Sublist.refl l
      | exact List.filter_sublist l
      | exact (List.filter_sublist _).trans (List.filter_sublist l)

theorem simulate_trade_entry_time (ec : OHLCData) (sig : ConfluenceSignal)
    (ps : ℚ) (fd : List OHLCData) (t : TradeResult)
    (h : simulate_trade ec sig ps fd = .ok (some t)) :
    t.entry_time = ec.timestamp := by
  unfold simulate_trade at h
  split at h
  · simp at h
  · split at h
    all_goals dsimp only at h
    all_goals split at h
    all_goals
      first
        | exact Except.noConfusion h
        | (injection h with h0
           injection h0 with h1
           subst h1
           rfl)

theorem windowSlice_getLast? (data : List OHLCData) (i : ℕ)
    (h100 : 100 ≤ i) (hlt : i < data.length) :
    (windowSlice data i).getLast? = data[i]? := by
  unfold windowSlice
  rw [List.getLast?_eq_getElem?]
  have hlen : ((data.drop (i - 100)).take 101).length = 101 := by
    rw [List.length_take, List.length_drop]
    omega
  rw [hlen, List.getElem?_take, if_pos (by omega), List.getElem?_drop]
  congr 1
  omega

theorem pairwise_ts_lt (data : List OHLCData)
    (hts : List.Pairwise (· < ·) (data.map (·.timestamp)))
    (j i : ℕ) (hj : j < i) (hi : i < data.length) :
    (data.getD j defaultBar).timestamp < (data.getD i defaultBar).timestamp := by
  have hjl : j < data.length := by omega
  rw [List.getD_eq_getElem data defaultBar hjl, List.getD_eq_getElem data defaultBar hi]
  have h2 := List.pairwise_iff_getElem.mp hts j i
    (by simpa using hjl) (by simpa using hi) hj
  simpa using h2

theorem backtestStep_error (cfg : StrategyConfig) (data : List OHLCData)
    (e : PyError) (i : ℕ) : backtestStep cfg data (.error e) i = .error e := rfl

theorem backtestFold_error (cfg : StrategyConfig) (data : List OHLCData) :
    ∀ (l : List ℕ) (e : PyError),
      l.foldl (backtestStep cfg data) (.error e) = .error e := by
  intro l e
  induction l with
  | nil => rfl
  | cons i rest ih => rw [List.foldl_cons, backtestStep_error]; exact ih

theorem backtestStep_cases (cfg : StrategyConfig) (data : List OHLCData)
    (b : ℚ) (tr : List TradeResult) (i : ℕ)
    (h100 : 100 ≤ i) (hlt : i < data.length) :
    (∃ e, backtestStep cfg data (.ok (b, tr)) i = .error e) ∨
    (∃ b2, backtestStep cfg data (.ok (b, tr)) i = .ok (b2, tr)) ∨
    (∃ b2 t, backtestStep cfg data (.ok (b, tr)) i = .ok (b2, tr ++ [t]) ∧
      t.entry_time = (data.getD i defaultBar).timestamp) := by
  show (∃ e, backtestStepOk cfg data b tr i = .error e) ∨
    (∃ b2, backtestStepOk cfg data b tr i = .ok (b2, tr)) ∨
    (∃ b2 t, backtestStepOk cfg data b tr i = .ok (b2, tr ++ [t]) ∧
      t.entry_time = (data.getD i defaultBar).timestamp)
  unfold backtestStepOk
  dsimp only
  split
  · exact .inl ⟨_, rfl⟩
  all_goals try split
  all_goals try split
  all_goals try split
  all_goals try split
  all_goals
    first
      | exact .inl ⟨_, rfl⟩
      | exact .inr (.inl ⟨_, rfl⟩)
      | (rename_i t heq
         refine .inr (.inr ⟨_, t, rfl, ?_⟩)
         rw [simulate_trade_entry_time _ _ _ _ _ heq]
         rw [List.getD_eq_getElem?_getD, ← windowSlice_getLast? data i h100 hlt]
         try rfl)

theorem backtestFold_invariant (cfg : StrategyConfig) (data : List OHLCData)
    (hts : List.Pairwise (· < ·) (data.map (·.timestamp))) :
    ∀ (k a : ℕ), 100 ≤ a → a + k ≤ data.length →
    ∀ (b : ℚ) (tr : List TradeResult),
      List.Pairwise (· < ·) (tr.map (·.entry_time)) →
      (∀ t ∈ tr, ∃ j, j < a ∧ j < data.length ∧
        t.entry_time = (data.getD j defaultBar).timestamp) →
      (∃ e, (List.range' a k).foldl (backtestStep cfg data) (.ok (b, tr)) = .error e) ∨
      (∃ b2 tr2,
        (List.range' a k).foldl (backtestStep cfg data) (.ok (b, tr)) = .ok (b2, tr2) ∧
        List.Pairwise (· < ·) (tr2.map (·.entry_time)) ∧
        ∀ t ∈ tr2, ∃ j, j < a + k ∧ j < data.length ∧
          t.entry_time = (data.getD j defaultBar).timestamp) := by
  intro k
  induction k with
  | zero =>
    intro a h100 hak b tr hpw hbd
    refine .inr ⟨b, tr, rfl, hpw, fun t ht => ?_⟩
    obtain ⟨j, hj, hjl, hje⟩ := hbd t ht
    exact ⟨j, by omega, hjl, hje⟩
  | succ k ih =>
    intro a h100 hak b tr hpw hbd
    rw [List.range'_succ, List.foldl_cons]
    rcases backtestStep_cases cfg data b tr a h100 (by omega) with
      ⟨e, he⟩ | ⟨b2, hok⟩ | ⟨b2, t, hok, hent⟩
    · rw [he, backtestFold_error]
      exact .inl ⟨e, rfl⟩
    · rw [hok]
      rcases ih (a + 1) (by omega) (by omega) b2 tr hpw
          (fun t ht => by
            obtain ⟨j, hj, hjl, hje⟩ := hbd t ht
            exact ⟨j, by omega, hjl, hje⟩) with
        ⟨e, he⟩ | ⟨b3, tr3, heq, hpw3, hbd3⟩
      · exact .inl ⟨e, he⟩
      · refine .inr ⟨b3, tr3, heq, hpw3, fun t ht => ?_⟩
        obtain ⟨j, hj, hjl, hje⟩ := hbd3 t ht
        exact ⟨j, by omega, hjl, hje⟩
    · rw [hok]
      have hpw2 : List.Pairwise (· < ·) ((tr ++ [t]).map (·.entry_time)) := by
        rw [List.map_append, List.pairwise_append]
        refine ⟨hpw, by simp, fun x hx y hy => ?_⟩
        simp only [List.map_cons, List.map_nil, List.mem_cons,
          List.not_mem_nil, or_false] at hy
        subst hy
        obtain ⟨t0, ht0, rfl⟩ := List.mem_map.mp hx
        obtain ⟨j, hj, hjl, hje⟩ := hbd t0 ht0
        rw [hje, hent]
        exact pairwise_ts_lt data hts j a hj (by omega)
      have hbd2 : ∀ t2 ∈ tr ++ [t], ∃ j, j < a + 1 ∧ j < data.length ∧
          t2.entry_time = (data.getD j defaultBar).timestamp := by
        intro t2 ht2
        rcases List.mem_append.mp ht2 with h1 | h1
        · obtain ⟨j, hj, hjl, hje⟩ := hbd t2 h1
          exact ⟨j, by omega, hjl, hje⟩
        · simp only [List.mem_singleton] at h1
          subst h1
          exact ⟨a, by omega, by omega, hent⟩
      rcases ih (a + 1) (by omega) (by omega) b2 (tr ++ [t]) hpw2 hbd2 with
        ⟨e, he⟩ | ⟨b3, tr3, heq, hpw3, hbd3⟩
      · exact .inl ⟨e, he⟩
      · refine .inr ⟨b3, tr3, heq, hpw3, fun t2 ht2 => ?_⟩
        obtain ⟨j, hj, hjl, hje⟩ := hbd3 t2 ht2
        exact ⟨j, by omega, hjl, hje⟩

/-- C3 amended: the sliding-window loop opens trades in strictly
increasing entry-time order (one candidate per window position), but it
does not enforce a single open position - a new trade can be entered
while an earlier trade's exit still lies in the future, so the
[entry_time, exit_time] intervals of distinct trades may overlap (see the
counterexample). -/
theorem C3_amended_entry_times_increasing (cfg : StrategyConfig)
    (data : List OHLCData) (sd ed : Option ℚ) (h : tsAscending data) :
    entriesIncreasing (execute_backtest cfg data sd ed) := by
  have hts : List.Pairwise (· < ·)
      ((filterByDates sd ed data).map (·.timestamp)) :=
    List.Pairwise.sublist
      (List.Sublist.map _ (filterByDates_sublist sd ed data)) h
  unfold execute_backtest
  dsimp only
  split
  · simp [entriesIncreasing]
  · rename_i hlen
    rcases backtestFold_invariant cfg (filterByDates sd ed data) hts
        ((filterByDates sd ed data).length - 110) 100 (by omega) (by omega)
        cfg.initial_balance [] (by simp) (by simp) with
      ⟨e, he⟩ | ⟨b2, tr2, heq, hpw, _⟩
    · rw [he]
      simp [entriesIncreasing]
    · rw [heq]
      simpa [entriesIncreasing] using hpw

set_option maxRecDepth 100000 in
/-- C3 counterexample: on the valid 112-bar series exBars3 the backtest
produces exactly two trades; the second is entered one bar after the
first while the first is still open (both exit at the final bar), so
their intervals overlap, refuting the single-open-position claim. -/
theorem C3_counterexample_overlapping_trades : c3OverlapCheck = true := by decide

set_option maxRecDepth 10000 in
/-- Closed witness for C3 on a 100-bar ascending series (the loop body
never runs; the resulting empty trade list is trivially ordered). -/
theorem C3_witness : entriesIncreasing (execute_backtest exCfg exBars100 none none) :=
  C3_amended_entry_times_increasing exCfg exBars100 none none
    (by unfold tsAscending; decide)
